import Mathlib

/-!
Shallow embedding of the osuAisuru/bancho server (Python) for checking its
specification. Byte strings are `List Nat` with entries below 256; Python
`str` values are represented by their UTF-8 byte lists. Functions that can
raise a Python exception (IndexError, AssertionError, TypeError) return
`Option`, with `none` marking the raised exception.
-/

namespace Bancho

/-- From `u16.write` (`struct.pack "<H"`): two little-endian bytes. -/
def u16write (n : Nat) : List Nat := [n % 256, n / 256 % 256]

/-- From `u32.write` (`struct.pack "<I"`): four little-endian bytes. -/
def u32write (n : Nat) : List Nat :=
  [n % 256, n / 256 % 256, n / 65536 % 256, n / 16777216 % 256]

/-- From `i16.write` (`struct.pack "<h"`): two little-endian bytes of the two's
complement; callers stay within the i16 range required by `struct.pack`. -/
def i16write (n : Int) : List Nat := u16write (n % 65536).toNat

/-- From `i32.write` (`struct.pack "<i"`): four little-endian bytes of the two's
complement; callers stay within the i32 range required by `struct.pack`. -/
def i32write (n : Int) : List Nat := u32write (n % 4294967296).toNat

/-- From `read_int(data, signed=False)` = `int.from_bytes(data, "little")`. -/
def intFromBytesLE : List Nat → Nat
  | [] => 0
  | b :: rest => b + 256 * intFromBytesLE rest

/-- From `read_int(data, signed=True)`: little-endian two's complement; an empty
byte string reads as 0 (as `int.from_bytes(b"")` does). -/
def intFromBytesSignedLE (bs : List Nat) : Int :=
  let v := intFromBytesLE bs
  if bs ≠ [] ∧ 2 ^ (8 * bs.length - 1) ≤ v then (v : Int) - 2 ^ (8 * bs.length) else v

/-- From `i32.read`: `Packet.read(4)` then signed little-endian. `Packet.read`
returns `data[:count]` and drops it, short reads included. -/
def i32read (data : List Nat) : Int × List Nat :=
  (intFromBytesSignedLE (data.take 4), data.drop 4)

/-- Fuelled form of the ULEB128 loop of `String.write` (the fuel only
drives the recursion; `ulebWrite_eq` recovers the loop's equation). With
fuel 0 the value is 0 and the loop emits that single byte. -/
def ulebWriteAux : Nat → Nat → List Nat
  | 0, n => [n]
  | fuel + 1, n =>
    if n < 128 then [n] else (n % 128 ||| 128) :: ulebWriteAux fuel (n / 128)

/-- The ULEB128 loop of `String.write`: emit the low seven bits, set the
continuation bit when more remain (do-while, so 0 still emits one byte).
A fuel of `n` covers the loop since the value shrinks by a factor 128. -/
def ulebWrite (n : Nat) : List Nat := ulebWriteAux n n

/-- The ULEB128 loop of `String.read`: `length |= (body & 0x7f) << shift`,
stop once the continuation bit is clear. Reading past the end of the data
yields byte 0 (Python's `int.from_bytes(b"")`), which stops the loop. -/
def ulebRead : List Nat → Nat → Nat → Nat × List Nat
  | [], _, acc => (acc, [])
  | b :: rest, shift, acc =>
    let acc' := acc ||| (b &&& 127) <<< shift
    if b &&& 128 == 0 then (acc', rest) else ulebRead rest (shift + 7) acc'

/-- From `String.read`: one tag byte; anything other than `0x0b` yields the empty
string (only the tag byte is consumed); `0x0b` is followed by a ULEB128
length and that many bytes. -/
def stringRead : List Nat → List Nat × List Nat
  | [] => ([], [])
  | b :: rest =>
    if b ≠ 11 then ([], rest)
    else
      let (len, rest') := ulebRead rest 0 0
      (rest'.take len, rest'.drop len)

/-- From `String.write`: empty strings are the single byte `0x00`; otherwise
`0x0b`, the ULEB128 byte length, then the bytes. -/
def stringWrite (s : List Nat) : List Nat :=
  if s = [] then [0] else 11 :: (ulebWrite s.length ++ s)

/-- From `Packet.serialise`: `i16` packet id, one padding byte, `u32` payload
length, payload. -/
def packetFrame (packetId : Nat) (payload : List Nat) : List Nat :=
  i16write packetId ++ [0] ++ u32write payload.length ++ payload

/-- From `packets.notification(msg)`: a `CHO_NOTIFICATION` (24) frame holding one
wire string. -/
def notificationPacket (msg : List Nat) : List Nat :=
  packetFrame 24 (stringWrite msg)

/-- From `packets.dispose_match(match_id)`: a `CHO_DISPOSE_MATCH` (28) frame
holding one i32. -/
def disposeMatchPacket (matchId : Int) : List Nat :=
  packetFrame 28 (i32write matchId)

/-- From `Message.serialise` wrapped by `packets.send_message`: a
`CHO_SEND_MESSAGE` (7) frame with three wire strings and an i32 sender id. -/
def sendMessagePacket (sender content recipient : List Nat) (senderId : Int) : List Nat :=
  packetFrame 7 (stringWrite sender ++ stringWrite content ++ stringWrite recipient
    ++ i32write senderId)

/-- From `Message.read`: three wire strings then an i32; returns the fields and
the remaining bytes. -/
def messageRead (data : List Nat) : (List Nat × List Nat × List Nat × Int) × List Nat :=
  let (sender, r1) := stringRead data
  let (content, r2) := stringRead r1
  let (recipient, r3) := stringRead r2
  let (senderId, r4) := i32read r3
  ((sender, content, recipient, senderId), r4)

/-! Match data model (`app/objects/match.py`). -/

/-- From `SlotStatus` values from `objects/match.py`. -/
def OPEN : Nat := 1
def LOCKED : Nat := 2
def NOT_READY : Nat := 4
def READY : Nat := 8
def NO_MAP : Nat := 16
def PLAYING : Nat := 32
def COMPLETE : Nat := 64
def QUIT : Nat := 128
/-- From `HAS_USER = NOT_READY | READY | NO_MAP | PLAYING | COMPLETE`. -/
def HAS_USER : Nat := NOT_READY ||| READY ||| NO_MAP ||| PLAYING ||| COMPLETE

/-- From `MatchTeams` values. -/
def NEUTRAL : Nat := 0
def BLUE : Nat := 1
def RED : Nat := 2

/-- Modelled from the spec: the repository's `app/constants/mods.py` is not
in the sources. The spec fixes only what the claims need: mods form a
bitfield, `NOMOD` is empty, DoubleTime is a speed mod and HardRock is not
(glossary: freemod keeps speed mods on the match while slots carry
non-speed mods; scenario 4 treats DoubleTime as the speed portion of
DoubleTime|HardRock). Bit values are the standard osu! ones. -/
def NOMOD : Nat := 0
def HardRock : Nat := 16
def DoubleTime : Nat := 64
def HalfTime : Nat := 256
def Nightcore : Nat := 512
def SPEED_MODS : Nat := DoubleTime ||| Nightcore ||| HalfTime

/-- From `x & ~mask` on Python ints/IntFlags, expressed without complement:
clearing of the mask bits. -/
def andNot (x mask : Nat) : Nat := x ^^^ (x &&& mask)

/-- A match slot (`Slot.__init__` fields). `user` holds the seated user's
id; user objects are identified by their unique session ids. -/
structure Slot where
  user : Option Nat
  status : Nat
  team : Nat
  mods : Nat
  loaded : Bool
  skipped : Bool
deriving Repr, DecidableEq

/-- From `Slot()`: empty open slot. -/
def Slot.init : Slot :=
  { user := none, status := OPEN, team := NEUTRAL, mods := NOMOD
    loaded := false, skipped := false }

/-- From `Slot.copy_from`: copies `user`, `status`, `team`, `mods` only. -/
def Slot.copyFrom (_self other : Slot) : Slot :=
  { _self with
    user := other.user
    status := other.status
    team := other.team
    mods := other.mods }

/-- From `Slot.reset(new_status)`. -/
def Slot.reset (_self : Slot) (newStatus : Nat) : Slot :=
  { user := none, status := newStatus, team := NEUTRAL, mods := NOMOD
    loaded := false, skipped := false }

/-- From `slot.empty()`. -/
def Slot.empty (s : Slot) : Bool := s.user == none

/-- The multiplayer match (`Match.__init__` fields used by the claims;
`chat` is kept as the channel's routing key `real_name`). -/
structure Match where
  id : Nat
  name : List Nat
  password : List Nat
  hostId : Nat
  mapId : Int
  mapMd5 : List Nat
  mapName : List Nat
  lastMapId : Int
  mods : Nat
  mode : Nat
  freemod : Bool
  chatName : List Nat
  slots : List Slot
  teamType : Nat
  winCondition : Nat
  inProgress : Bool
  seed : Int
deriving Repr, DecidableEq

/-- From `Match()`: fresh match with 16 open slots. -/
def Match.init : Match :=
  { id := 0, name := [], password := [], hostId := 0, mapId := 0, mapMd5 := []
    mapName := [], lastMapId := 0, mods := NOMOD, mode := 0, freemod := false
    chatName := [], slots := List.replicate 16 Slot.init, teamType := 0
    winCondition := 0, inProgress := false, seed := 0 }

/-- From `Match.get_slot_id(user)`: index of the slot seating the user. -/
def Match.getSlotId (m : Match) (uid : Nat) : Option Nat :=
  (m.slots.findIdx? (fun s => s.user == some uid))

/-- From `Match.get_slot(user)`. -/
def Match.getSlot (m : Match) (uid : Nat) : Option Slot :=
  m.slots.find? (fun s => s.user == some uid)

/-- From `match.unready_users(expected)`: every slot with the expected status
becomes `NOT_READY`. -/
def Match.unreadyUsers (m : Match) (expected : Nat) : Match :=
  { m with slots := m.slots.map (fun s => if s.status == expected
      then { s with status := NOT_READY } else s) }

/-- From `usecases.match.get_host_slot`: first slot whose status has a
`HAS_USER` bit and whose user is the host session (unique ids stand in for
object identity). -/
def getHostSlot (m : Match) : Option Slot :=
  m.slots.find? (fun s => s.status &&& HAS_USER != 0 && s.user == some m.hostId)

/-! Match wire structure (`OsuMatch` in `app/typing.py`). -/

/-- The fields of `OsuMatch.__init__`. -/
structure OsuMatch where
  id : Nat
  inProgress : Bool
  mods : Nat
  password : List Nat
  name : List Nat
  mapName : List Nat
  mapId : Int
  mapMd5 : List Nat
  slotIds : List Nat
  winCondition : Nat
  teamType : Nat
  freemod : Bool
  seed : Int
  slotStatuses : List Nat
  slotTeams : List Nat
  slotMods : List Nat
  mode : Nat
  hostId : Nat
deriving Repr, DecidableEq

/-- From `packets.write_match`: builds the wire structure from a `Match`.
`slot_ids` is `[slot.user.id for slot in match.slots if slot.user]` — a
compacted list holding only the occupied slots' user ids. -/
def writeMatch (m : Match) : OsuMatch :=
  { id := m.id, inProgress := m.inProgress, mods := m.mods
    password := m.password, name := m.name, mapName := m.mapName
    mapId := m.mapId, mapMd5 := m.mapMd5
    slotIds := m.slots.filterMap (fun s => s.user)
    winCondition := m.winCondition, teamType := m.teamType
    freemod := m.freemod, seed := m.seed
    slotStatuses := m.slots.map (fun s => s.status)
    slotTeams := m.slots.map (fun s => s.team)
    slotMods := m.slots.map (fun s => s.mods)
    mode := m.mode, hostId := m.hostId }

/-- The user-id loop of `OsuMatch.serialise`:
`for idx, slot_status in enumerate(self.slot_statuses): if slot_status &
SlotStatus.HAS_USER: data += i32.write(self.slot_ids[idx])`. The index into
`slot_ids` is the slot number, so a missing entry raises `IndexError`
(`none`). -/
def slotIdsBytesGo (slotIds : List Nat) : List Nat → Nat → Option (List Nat)
  | [], _ => some []
  | st :: rest, idx =>
    if st &&& HAS_USER != 0 then do
      let uid ← slotIds.get? idx
      let tail ← slotIdsBytesGo slotIds rest (idx + 1)
      return i32write uid ++ tail
    else slotIdsBytesGo slotIds rest (idx + 1)

/-- See `slotIdsBytesGo`; the enumeration starts at index 0. -/
def slotIdsBytes (statuses : List Nat) (slotIds : List Nat) : Option (List Nat) :=
  slotIdsBytesGo slotIds statuses 0

/-- From `i8.write` for the small non-negative values serialise feeds it. -/
def i8bytes (n : Nat) : List Nat := [n % 256]

/-- From `OsuMatch.serialise(send_pw)`: the full match wire encoding. A password
that exists but is withheld is written as `0x0b 0x00`; an absent password
as `0x00`. Slot status and team bytes are written raw
(`data.extend([...])`). -/
def OsuMatch.serialise (om : OsuMatch) (sendPw : Bool) : Option (List Nat) := do
  let pwBytes :=
    if om.password ≠ [] then
      if sendPw then stringWrite om.password else [11, 0]
    else [0]
  let ids ← slotIdsBytes om.slotStatuses om.slotIds
  return u16write om.id
    ++ i8bytes (if om.inProgress then 1 else 0)
    ++ i8bytes 0
    ++ i32write om.mods
    ++ stringWrite om.name
    ++ pwBytes
    ++ stringWrite om.mapName
    ++ i32write om.mapId
    ++ stringWrite om.mapMd5
    ++ om.slotStatuses
    ++ om.slotTeams
    ++ ids
    ++ i32write om.hostId
    ++ i8bytes om.mode
    ++ i8bytes om.winCondition
    ++ i8bytes om.teamType
    ++ i8bytes (if om.freemod then 1 else 0)
    ++ (if om.freemod then (om.slotMods.map (fun md => i32write (md : Int))).flatten else [])
    ++ i32write om.seed

/-! Pure match-state packet handlers (`app/api.py`). -/

/-- The guard `match.slots[packet_data.slot_id] != SlotStatus.OPEN` of
`change_match_slot` compares the `Slot` *object* with the `SlotStatus`
enum member. `Slot` defines no `__eq__`, and `int.__eq__` returns
`NotImplemented` on a `Slot`, so Python falls back to identity and the
inequality is always true. -/
def slotObjectNeStatus (_slot : Slot) (_status : Nat) : Bool := true

/-- From `change_match_slot` (lines 801-822), the match-state effect for a user
already checked to be in the match: out-of-range slot ids return
unchanged; then the object/enum guard; then (unreachably) the slot move:
copy the user's slot into the target and reset the source. -/
def changeMatchSlot (m : Match) (uid : Nat) (slotId : Int) : Match :=
  if ¬(0 ≤ slotId ∧ slotId < 16) then m
  else
    let idx := slotId.toNat
    if slotObjectNeStatus (m.slots.getD idx Slot.init) OPEN then m
    else
      match m.getSlotId uid with
      | none => m
      | some srcIdx =>
        let src := m.slots.getD srcIdx Slot.init
        let slots := m.slots.set idx ((m.slots.getD idx Slot.init).copyFrom src)
        let slots := slots.set srcIdx (src.reset OPEN)
        { m with slots := slots }

/-- From `lock_match` (lines 837-858), the match-state effect once the sender is
known to be the host: out-of-range slot ids return unchanged; a `LOCKED`
slot becomes `OPEN`; any other slot becomes `LOCKED` unless it seats the
host (object identity stands as id equality, session ids being unique). -/
def lockMatch (m : Match) (slotId : Int) : Match :=
  if ¬(0 ≤ slotId ∧ slotId < 16) then m
  else
    let idx := slotId.toNat
    let slot := m.slots.getD idx Slot.init
    if slot.status == LOCKED then
      { m with slots := m.slots.set idx { slot with status := OPEN } }
    else
      if slot.user == some m.hostId then m
      else { m with slots := m.slots.set idx { slot with status := LOCKED } }

/-- From `change_match_settings` (lines 861-929), the match-state effect once
the sender is known to be the host. The freemod-off branch asserts a host
slot exists (`none` = `AssertionError`); it masks the host slot's mods
with `SPEED_MODS` before or-ing them into the match mods, then zeroes
every occupied slot's mods (the intermediate host-slot mutation is
overwritten by that loop, so only the masked value survives). The chat
messages the handler sends do not touch the match state and are omitted. -/
def changeMatchSettings (m : Match) (p : OsuMatch) : Option Match := do
  let m ←
    if p.freemod != m.freemod then
      let m := { m with freemod := p.freemod }
      if p.freemod then
        let slots := m.slots.map (fun s =>
          if s.status &&& HAS_USER != 0 then { s with mods := andNot m.mods SPEED_MODS }
          else s)
        pure { m with slots := slots, mods := m.mods &&& SPEED_MODS }
      else do
        let host ← getHostSlot m
        let newMods := m.mods ||| (host.mods &&& SPEED_MODS)
        let slots := m.slots.map (fun s =>
          if s.status &&& HAS_USER != 0 then { s with mods := NOMOD } else s)
        pure { m with mods := newMods, slots := slots }
    else pure m
  let m :=
    if p.mapId == -1 then
      let m := m.unreadyUsers READY
      { m with lastMapId := m.mapId, mapId := -1, mapMd5 := [], mapName := [] }
    else if m.mapId == -1 then
      { m with mapId := p.mapId, mapMd5 := p.mapMd5, mapName := p.mapName
               mode := p.mode }
    else m
  let m :=
    if m.teamType != p.teamType then
      let newTeam := if p.teamType == 0 || p.teamType == 1 then NEUTRAL else RED
      let slots := m.slots.map (fun s =>
        if s.status &&& HAS_USER != 0 then { s with team := newTeam } else s)
      { m with slots := slots, teamType := p.teamType }
    else m
  return { m with winCondition := p.winCondition, name := p.name }

/-! Friends list handling (`app/usecases/user.py`, `remove_friend`). -/

/-- From `remove_friend`'s effect on the in-memory `user.friends` list: after
the not-present guard, the code runs `user.friends.append(other_user.id)`
(while issuing a `$pull` to the store). -/
def removeFriendMemory (friends : List Nat) (targetId : Nat) : List Nat :=
  if ¬(targetId ∈ friends) then friends
  else friends ++ [targetId]

/-! Duplicate-login policy (`app/api.py` `login`, lines 196-204). -/

/-- The ASCII bytes of the text `You are already logged in!`. -/
def alreadyLoggedInText : List Nat :=
  [89, 111, 117, 32, 97, 114, 101, 32, 97, 108, 114, 101, 97, 100, 121,
   32, 108, 111, 103, 103, 101, 100, 32, 105, 110, 33]

/-- The ASCII bytes of the rejection token `no`. -/
def noToken : List Nat := [110, 111]

/-- Outcome of the duplicate-session branch of `login`. -/
inductive LoginDup where
  | proceed
  | forceLogoutThenProceed
  | reject (token : List Nat) (body : List Nat)
deriving Repr, DecidableEq

/-- Lines 196-204 of `login`: when a session with the same name is active
and neither the incoming stream is tourney nor the existing session has
tourney set, an idle time above 10 seconds force-logs the old session out
and the login proceeds; otherwise the login is rejected with token `no`
and a body of one notification packet. -/
def loginDuplicateCheck (sessionExists incomingTourney existingTourney : Bool)
    (now latestActivity : ℚ) : LoginDup :=
  if sessionExists then
    if ¬(incomingTourney || existingTourney) then
      if now - latestActivity > 10 then .forceLogoutThenProceed
      else .reject noToken (notificationPacket alreadyLoggedInText)
    else .proceed
  else .proceed

/-! Sessions state (`app/state/sessions.py`, `app/objects/lists.py`,
`app/objects/channel.py`). Users, channels and matches refer to each other
by unique session ids / routing keys in place of Python object identity. -/

/-- The per-session user fields these claims touch. -/
structure EUser where
  id : Nat
  name : List Nat
  privileges : Nat
  queue : List Nat
  channels : List (List Nat)
  matchIdx : Option Nat
deriving Repr, DecidableEq

/-- A channel: `real_name` is the routing key; `users` holds member ids
(`Channel.add_user` refuses duplicates, so members are unique). -/
structure EChan where
  realName : List Nat
  name : List Nat
  topic : List Nat
  privileges : Nat
  isInstance : Bool
  users : List Nat
deriving Repr, DecidableEq

/-- The process-wide registries. -/
structure ServerState where
  users : List EUser
  channels : List EChan
  matchList : List (Option Match)
deriving Repr, DecidableEq

/-- From `user.cache_fetch(id=uid)`: first session with the id. -/
def findUser (st : ServerState) (uid : Nat) : Option EUser :=
  st.users.find? (fun u => u.id == uid)

/-- From `ChannelList.get_by_name`: first channel whose `real_name` matches. -/
def getChannel (channels : List EChan) (name : List Nat) : Option EChan :=
  channels.find? (fun c => c.realName == name)

/-- From `Channel.has_permission`. -/
def chanHasPermission (c : EChan) (privileges : Nat) : Bool :=
  c.privileges == 0 || (privileges &&& c.privileges != 0)

/-- From `packets.channel_info`: a `CHO_CHANNEL_INFO` (65) frame with the
channel's display name, topic and member count. -/
def channelInfoPacket (c : EChan) : List Nat :=
  packetFrame 65 (stringWrite c.name ++ stringWrite c.topic
    ++ i32write c.users.length)

/-- From `packets.match_transfer_host()`: an empty `CHO_MATCH_TRANSFER_HOST`
(50) frame. -/
def matchTransferHostPacket : List Nat := packetFrame 50 []

/-- From `Channel.enqueue(data, immune)`: append `data` to the queue of every
member not in `immune`. -/
def enqueueToIds (st : ServerState) (memberIds : List Nat) (immune : List Nat)
    (data : List Nat) : ServerState :=
  { st with users := st.users.map (fun u =>
      if u.id ∈ memberIds ∧ ¬(u.id ∈ immune) then { u with queue := u.queue ++ data }
      else u) }

/-- Append `data` to one user's queue (`user.enqueue`). -/
def enqueueToUser (st : ServerState) (uid : Nat) (data : List Nat) : ServerState :=
  { st with users := st.users.map (fun u =>
      if u.id == uid then { u with queue := u.queue ++ data } else u) }

/-- From `usecases.user.leave_channel(user, channel)` with `kick=False`: no-op
for non-members; otherwise remove the user from the channel and the
channel from the user, then send the updated `channel_info` to the
remaining members (instance channels) or to every permitted session. -/
def leaveChannel (st : ServerState) (uid : Nat) (chanName : List Nat) : ServerState :=
  match getChannel st.channels chanName with
  | none => st
  | some c =>
    if ¬(uid ∈ c.users) then st
    else
      let c' := { c with users := c.users.erase uid }
      let st := { st with
        channels := st.channels.map (fun ch => if ch.realName == chanName then c' else ch)
        users := st.users.map (fun u =>
          if u.id == uid then { u with channels := u.channels.erase chanName } else u) }
      let pkt := channelInfoPacket c'
      if c'.isInstance then enqueueToIds st c'.users [] pkt
      else { st with users := st.users.map (fun u =>
        if chanHasPermission c' u.privileges then { u with queue := u.queue ++ pkt }
        else u) }

/-- From `MatchList.remove`: blank the first array entry holding the match
(object identity; match ids are unique, assigned from the array index). -/
def matchListRemove : List (Option Match) → Nat → List (Option Match)
  | [], _ => []
  | some m :: rest, mid =>
    if m.id == mid then none :: rest else some m :: matchListRemove rest mid
  | none :: rest, mid => none :: matchListRemove rest mid

/-- The routing key `#lobby`, as ASCII bytes. -/
def lobbyNameBytes : List Nat := [35, 108, 111, 98, 98, 121]

/-- From `usecases.match.enqueue(match, data, lobby, immune)`: send to the
match chat's members (minus `immune`), and also to `#lobby` members when
`lobby` is set, that channel exists, and it has members. A missing match
chat would raise (`none`). -/
def matchEnqueue (st : ServerState) (m : Match) (data : List Nat)
    (lobby : Bool) (immune : List Nat) : Option ServerState := do
  let chat ← getChannel st.channels m.chatName
  let st := enqueueToIds st chat.users immune data
  if lobby then
    match getChannel st.channels lobbyNameBytes with
    | some lob => if lob.users ≠ [] then pure (enqueueToIds st lob.users [] data) else pure st
    | none => pure st
  else pure st

/-- From `usecases.match.enqueue_state(match, lobby)`: a `CHO_UPDATE_MATCH`
(26) frame with the password to the match chat, and one without it to
`#lobby` when requested and populated. Serialisation may raise (`none`). -/
def enqueueState (st : ServerState) (m : Match) (lobby : Bool) : Option ServerState := do
  let chat ← getChannel st.channels m.chatName
  let pw ← (writeMatch m).serialise true
  let st := enqueueToIds st chat.users [] (packetFrame 26 pw)
  if lobby then
    match getChannel st.channels lobbyNameBytes with
    | some lob =>
      if lob.users ≠ [] then do
        let noPw ← (writeMatch m).serialise false
        pure (enqueueToIds st lob.users [] (packetFrame 26 noPw))
      else pure st
    | none => pure st
  else pure st

/-- Clear `user.match`. -/
def clearUserMatch (st : ServerState) (uid : Nat) : ServerState :=
  { st with users := st.users.map (fun u =>
      if u.id == uid then { u with matchIdx := none } else u) }

/-- From `usecases.user.leave_match(user)` (lines 278-316): reset the user's
slot (`LOCKED` stays `LOCKED`, anything else opens), leave the match chat;
if every slot is now empty, remove the match from the array and send
`dispose_match` to `#lobby`; otherwise transfer the host if the leaver
held it (first `HAS_USER` slot) and rebroadcast the match state. Finally
clear `user.match`. `none` marks a raised assertion or serialisation
error. -/
def leaveMatch (st : ServerState) (uid : Nat) : Option ServerState := do
  let u ← findUser st uid
  match u.matchIdx with
  | none => some st
  | some mid => do
    let m ← st.matchList.getD mid none
    let sIdx ← m.getSlotId uid
    let slot := m.slots.getD sIdx Slot.init
    let newStatus := if slot.status == LOCKED then LOCKED else OPEN
    let m := { m with slots := m.slots.set sIdx (slot.reset newStatus) }
    let st := { st with matchList := st.matchList.set mid (some m) }
    let st := leaveChannel st uid m.chatName
    if m.slots.all (fun s => s.empty) then
      let st := { st with matchList := matchListRemove st.matchList m.id }
      let st :=
        match getChannel st.channels lobbyNameBytes with
        | some lob => enqueueToIds st lob.users [] (disposeMatchPacket m.id)
        | none => st
      some (clearUserMatch st uid)
    else do
      let (st, m) ←
        if uid == m.hostId then
          match m.slots.find? (fun s => s.status &&& HAS_USER != 0) with
          | some s => do
            let nid ← s.user
            let m := { m with hostId := nid }
            let st := { st with matchList := st.matchList.set mid (some m) }
            pure (enqueueToUser st nid matchTransferHostPacket, m)
          | none => pure (st, m)
        else pure (st, m)
      let st ← enqueueState st m true
      some (clearUserMatch st uid)

/-- From `Channel.send(msg, sender)` together with `selective_send`: denied
without channel permission; otherwise every channel member's queue —
recipients are `channel.users`, the sender not excluded — receives a
`send_message` frame whose recipient field is that member's own name
(`User.receive_message` uses `self.name`). -/
def channelSend (st : ServerState) (chanName : List Nat) (senderId : Nat)
    (msg : List Nat) : ServerState :=
  match getChannel st.channels chanName, findUser st senderId with
  | some c, some sender =>
    if ¬(chanHasPermission c sender.privileges) then st
    else
      { st with users := st.users.map (fun u =>
          if u.id ∈ c.users then
            { u with queue := u.queue
                ++ sendMessagePacket sender.name msg u.name (sender.id : Int) }
          else u) }
  | _, _ => st

/-- From `bytearray.__setitem__`: in-range assignment, `IndexError` otherwise. -/
def listSetByte : List Nat → Nat → Nat → Option (List Nat)
  | [], _, _ => none
  | _ :: rest, 0, v => some (v :: rest)
  | b :: rest, i + 1, v => (listSetByte rest i v).map (fun t => b :: t)

/-- From `update_match_score` (lines 944-958): a user not in a match is a
no-op; otherwise build `b"0\x00\x00"` (the `CHO_MATCH_SCORE_UPDATE` id 48
little-endian plus the pad byte), the i32 payload length, the raw
payload, overwrite byte index 11 with the sender's slot id, and enqueue to
the match chat with `lobby=False`. `none` marks a raised error (unseated
sender or a payload shorter than 5 bytes). -/
def updateMatchScore (st : ServerState) (uid : Nat) (payload : List Nat) :
    Option ServerState := do
  let u ← findUser st uid
  match u.matchIdx with
  | none => some st
  | some mid => do
    let m ← st.matchList.getD mid none
    let base := [48, 0, 0] ++ i32write payload.length ++ payload
    let sid ← m.getSlotId uid
    let data ← listSetByte base 11 sid
    matchEnqueue st m data false []

/-! Concrete fixtures for the claims. -/

/-- A slot seating a user with the given status. -/
def seat (uid status : Nat) : Slot := { Slot.init with user := some uid, status := status }

/-- Sixteen open slots. -/
def emptySlots : List Slot := List.replicate 16 Slot.init

/-- The slot invariant `s.user != null ⇔ (s.status & HAS_USER) != 0`. -/
def slotInvariantB (s : Slot) : Bool := (s.user != none) == (s.status &&& HAS_USER != 0)

/-- A match whose only occupant sits at slot 1 — the occupied slots are
not a prefix of the slot array. -/
def c1Match : Match :=
  { Match.init with hostId := 7, slots := emptySlots.set 1 (seat 7 NOT_READY) }

/-- Host 5 seated at slot 0, match mods DoubleTime|HardRock. -/
def c2Match : Match :=
  { Match.init with
    hostId := 5
    mods := DoubleTime ||| HardRock
    slots := emptySlots.set 0 (seat 5 NOT_READY) }

/-- An `OSU_MATCH_CHANGE_SETTINGS` payload that only toggles freemod
(other fields repeat the match's current values). -/
def settingsPacket (fm : Bool) : OsuMatch :=
  { id := 0, inProgress := false, mods := 0, password := [], name := []
    mapName := [], mapId := 0, mapMd5 := [], slotIds := [], winCondition := 0
    teamType := 0, freemod := fm, seed := 0, slotStatuses := [], slotTeams := []
    slotMods := [], mode := 0, hostId := 0 }

/-- Host 5 at slot 0, a second user 7 at slot 1, both `NOT_READY`. -/
def c3Match : Match :=
  { Match.init with
    hostId := 5
    slots := (emptySlots.set 0 (seat 5 NOT_READY)).set 1 (seat 7 NOT_READY) }

/-- User 7 seated at slot 0 with slot 1 open. -/
def c6Match : Match :=
  { Match.init with hostId := 7, slots := emptySlots.set 0 (seat 7 NOT_READY) }

/-- From `#osu` as bytes. -/
def osuNameBytes : List Nat := [35, 111, 115, 117]

/-- From `#multiplayer` as bytes (instance channels display this name). -/
def multiplayerNameBytes : List Nat :=
  [35, 109, 117, 108, 116, 105, 112, 108, 97, 121, 101, 114]

/-- From `#multi_0` as bytes (the match chat's routing key). -/
def multiName0 : List Nat := [35, 109, 117, 108, 116, 105, 95, 48]

/-- The `#lobby` channel with the given members. -/
def lobbyChan (users : List Nat) : EChan :=
  { realName := lobbyNameBytes, name := lobbyNameBytes, topic := []
    privileges := 1, isInstance := false, users := users }

/-- Match 0's `#multi_0` instance channel with the given members. -/
def multiChan0 (users : List Nat) : EChan :=
  { realName := multiName0, name := multiplayerNameBytes, topic := []
    privileges := 1, isInstance := true, users := users }

/-- A two-member public channel: Alice (id 1) and Bob (id 2). -/
def c5State : ServerState :=
  { users := [
      { id := 1, name := [65], privileges := 1, queue := [], channels := [osuNameBytes]
        matchIdx := none },
      { id := 2, name := [66], privileges := 1, queue := [], channels := [osuNameBytes]
        matchIdx := none } ]
    channels := [
      { realName := osuNameBytes, name := osuNameBytes, topic := [], privileges := 1
        isInstance := false, users := [1, 2] } ]
    matchList := [] }

/-- Match 0 with its lone occupant (user 7) seated at slot `s`. -/
def c4Match (s : Fin 16) : Match :=
  { Match.init with
    id := 0
    hostId := 7
    chatName := multiName0
    slots := emptySlots.set s (seat 7 NOT_READY) }

/-- User 7 alone in match 0 (seated at slot `s`), user 9 in `#lobby`. -/
def c4State (s : Fin 16) (q7 q9 : List Nat) : ServerState :=
  { users := [
      { id := 7, name := [65], privileges := 1, queue := q7, channels := [multiName0]
        matchIdx := some 0 },
      { id := 9, name := [66], privileges := 1, queue := q9, channels := [lobbyNameBytes]
        matchIdx := none } ]
    channels := [lobbyChan [9], multiChan0 [7]]
    matchList := some (c4Match s) :: List.replicate 63 none }

/-- The state `leaveMatch` produces from `c4State`: the match entry is
blanked, `#lobby`'s member got the dispose packet, and the `#multi_0`
channel is still registered, merely emptied. -/
def c4After (q7 q9 : List Nat) : ServerState :=
  { users := [
      { id := 7, name := [65], privileges := 1, queue := q7, channels := []
        matchIdx := none },
      { id := 9, name := [66], privileges := 1, queue := q9 ++ disposeMatchPacket 0
        channels := [lobbyNameBytes], matchIdx := none } ]
    channels := [lobbyChan [9], multiChan0 []]
    matchList := none :: List.replicate 63 none }

/-- Match 0 with user 7 `PLAYING` at slot `s`. -/
def c9Match (s : Fin 16) : Match :=
  { Match.init with
    id := 0
    hostId := 7
    chatName := multiName0
    slots := emptySlots.set s (seat 7 PLAYING) }

/-- Users 7 and 8 in match 0's chat, user 9 in `#lobby`. -/
def c9State (s : Fin 16) (q7 q8 q9 : List Nat) : ServerState :=
  { users := [
      { id := 7, name := [65], privileges := 1, queue := q7, channels := [multiName0]
        matchIdx := some 0 },
      { id := 8, name := [66], privileges := 1, queue := q8, channels := [multiName0]
        matchIdx := some 0 },
      { id := 9, name := [67], privileges := 1, queue := q9, channels := [lobbyNameBytes]
        matchIdx := none } ]
    channels := [lobbyChan [9], multiChan0 [7, 8]]
    matchList := some (c9Match s) :: List.replicate 63 none }

/-! Codec lemmas. -/

/-- The fuel is irrelevant once it covers the value. -/
lemma ulebWriteAux_congr : ∀ (f₁ f₂ n : Nat), n ≤ f₁ → n ≤ f₂ →
    ulebWriteAux f₁ n = ulebWriteAux f₂ n := by
  intro f₁
  induction f₁ with
  | zero =>
    intro f₂ n h1 _
    have hn : n = 0 := by omega
    subst hn
    cases f₂ <;> simp [ulebWriteAux]
  | succ f ih =>
    intro f₂ n h1 h2
    cases f₂ with
    | zero =>
      have hn : n = 0 := by omega
      subst hn
      simp [ulebWriteAux]
    | succ g =>
      by_cases h128 : n < 128
      · simp [ulebWriteAux, h128]
      · have hx : n / 128 < n := Nat.div_lt_self (by omega) (by omega)
        simp only [ulebWriteAux, if_neg h128]
        exact congrArg _ (ih g (n / 128) (by omega) (by omega))

/-- The do-while equation of the ULEB128 writer. -/
lemma ulebWrite_eq (n : Nat) :
    ulebWrite n = if n < 128 then [n] else (n % 128 ||| 128) :: ulebWrite (n / 128) := by
  unfold ulebWrite
  by_cases h : n < 128
  · cases n with
    | zero => simp [ulebWriteAux]
    | succ m => simp [ulebWriteAux, h]
  · obtain ⟨m, rfl⟩ : ∃ m, n = m + 1 := ⟨n - 1, by omega⟩
    have hx : (m + 1) / 128 < m + 1 := Nat.div_lt_self (by omega) (by omega)
    simp only [ulebWriteAux, if_neg h]
    exact congrArg _ (ulebWriteAux_congr m ((m + 1) / 128) ((m + 1) / 128)
      (by omega) (le_refl _))

/-- A value below 128 has no continuation bit. -/
lemma and128_eq_zero_of_lt {n : Nat} (h : n < 128) : n &&& 128 = 0 := by
  have h7 : n.testBit 7 = false := Nat.testBit_lt_two_pow (by omega)
  have := Nat.and_two_pow n 7
  norm_num [h7] at this
  exact this

/-- Setting the continuation bit makes it visible to the mask. -/
lemma lor128_and128 (x : Nat) : (x ||| 128) &&& 128 = 128 := by
  rw [Nat.and_distrib_right]
  have h128 : (128 : Nat) = 2 ^ 7 := by norm_num
  have hx := Nat.and_two_pow x 7
  rw [h128, hx]
  cases h : x.testBit 7 <;> simp

/-- The low seven bits are unchanged by the continuation bit. -/
lemma lor128_and127 {x : Nat} (h : x < 128) : (x ||| 128) &&& 127 = x := by
  rw [Nat.and_distrib_right]
  have hx : x &&& 127 = x := by
    have : x &&& 2 ^ 7 - 1 = x := Nat.and_pow_two_sub_one_of_lt_two_pow (by omega)
    norm_num at this
    exact this
  have h2 : (128 : Nat) &&& 127 = 0 := by decide
  rw [hx, h2, Nat.or_zero]

/-- Recombining a seven-bit split under a shift. -/
lemma shiftLeft_split_recombine (n shift : Nat) :
    (n % 128) <<< shift ||| (n / 128) <<< (shift + 7) = n <<< shift := by
  rw [Nat.shiftLeft_eq, Nat.shiftLeft_eq, Nat.shiftLeft_eq]
  have hlt : (n % 128) * 2 ^ shift < 2 ^ (shift + 7) := by
    have hm : n % 128 < 128 := Nat.mod_lt _ (by norm_num)
    calc (n % 128) * 2 ^ shift < 128 * 2 ^ shift := by
          exact (Nat.mul_lt_mul_right (Nat.pos_pow_of_pos shift (by norm_num))).mpr hm
      _ = 2 ^ (shift + 7) := by rw [pow_add]; ring
  have hor := Nat.mul_add_lt_is_or hlt (n / 128)
  rw [Nat.lor_comm, show (n / 128) * 2 ^ (shift + 7) = 2 ^ (shift + 7) * (n / 128) by ring,
    ← hor, pow_add]
  calc 2 ^ shift * 2 ^ 7 * (n / 128) + n % 128 * 2 ^ shift
      = (128 * (n / 128) + n % 128) * 2 ^ shift := by ring
    _ = n * 2 ^ shift := by rw [Nat.div_add_mod]

/-- The ULEB128 reader inverts the writer, leaving trailing data alone. -/
lemma ulebRead_ulebWrite (n : Nat) :
    ∀ (shift acc : Nat) (t : List Nat),
      ulebRead (ulebWrite n ++ t) shift acc = (acc ||| n <<< shift, t) := by
  induction n using Nat.strong_induction_on with
  | _ n ih =>
    intro shift acc t
    rw [ulebWrite_eq]
    by_cases h : n < 128
    · rw [if_pos h]
      show ulebRead (n :: t) shift acc = _
      have h1 : (n &&& 128 == 0) = true := by
        simp [and128_eq_zero_of_lt h]
      have h2 : n &&& 127 = n := by
        have : n &&& 2 ^ 7 - 1 = n := Nat.and_pow_two_sub_one_of_lt_two_pow (by omega)
        norm_num at this
        exact this
      simp [ulebRead, h1, h2]
    · rw [if_neg h]
      show ulebRead ((n % 128 ||| 128) :: (ulebWrite (n / 128) ++ t)) shift acc = _
      have hb : ((n % 128 ||| 128) &&& 128 == 0) = false := by
        simp [lor128_and128]
      have h127 : (n % 128 ||| 128) &&& 127 = n % 128 :=
        lor128_and127 (Nat.mod_lt _ (by norm_num))
      have hrec := ih (n / 128) (Nat.div_lt_self (by omega) (by omega))
        (shift + 7) (acc ||| (n % 128) <<< shift) t
      simp only [ulebRead, hb, if_false, h127, cond_false]
      rw [if_neg (by simp [lor128_and128])]
      rw [hrec, Nat.lor_assoc, shiftLeft_split_recombine]

/-- The wire-string reader inverts the writer, leaving trailing data
alone. -/
lemma stringRead_stringWrite (s t : List Nat) :
    stringRead (stringWrite s ++ t) = (s, t) := by
  by_cases h : s = []
  · subst h
    simp [stringWrite, stringRead]
  · rw [stringWrite, if_neg h]
    show stringRead (11 :: (ulebWrite s.length ++ s ++ t)) = _
    rw [List.append_assoc]
    simp only [stringRead, ne_eq, not_true_eq_false, if_false, reduceIte]
    rw [ulebRead_ulebWrite s.length 0 0]
    simp [List.take_left, List.drop_left]

/-! Claim theorems. -/

/-- C1: the claimed round-trip fails because encoding already raises. For
a match satisfying the slot invariant whose only occupant sits at slot 1,
`write_match` compacts `slot_ids` to a single entry, and
`OsuMatch.serialise(send_pw=True)` then indexes it with the slot number 1
— an `IndexError`, so no bytes are produced to decode. -/
theorem serialise_nonPrefixOccupancy_raises :
    c1Match.slots.all slotInvariantB = true ∧
    (writeMatch c1Match).serialise true = none := by
  decide

/-- C2: with match mods DoubleTime|HardRock and the host seated, enabling
freemod leaves DoubleTime on the match and HardRock on the occupied slot
(as claimed), but disabling freemod yields match mods DoubleTime — not
DoubleTime|HardRock — because the handler masks the host slot's mods with
`SPEED_MODS` before merging them. -/
theorem changeMatchSettings_freemodOff_dropsHardRock :
    (changeMatchSettings c2Match (settingsPacket true)).map Match.mods
      = some DoubleTime ∧
    (changeMatchSettings c2Match (settingsPacket true)).map
      (fun m => (m.slots.getD 0 Slot.init).mods) = some HardRock ∧
    ((changeMatchSettings c2Match (settingsPacket true)).bind
      (fun m => changeMatchSettings m (settingsPacket false))).map Match.mods
      = some DoubleTime ∧
    (DoubleTime : Nat) ≠ DoubleTime ||| HardRock := by
  decide

/-- C3: the invariant holds for a fresh match, but `lock_match` on an
occupied non-host slot sets its status to `LOCKED` while the user stays
seated, leaving a slot that violates
`s.user != null ⇔ (s.status & HAS_USER) != 0` — and a transition that is
not the claimed `LOCKED ↔ OPEN` toggle. -/
theorem lockMatch_occupiedSlot_breaksInvariant :
    Match.init.slots.all slotInvariantB = true ∧
    c3Match.slots.all slotInvariantB = true ∧
    ((lockMatch c3Match 1).slots.getD 1 Slot.init).user = some 7 ∧
    ((lockMatch c3Match 1).slots.getD 1 Slot.init).status = LOCKED ∧
    slotInvariantB ((lockMatch c3Match 1).slots.getD 1 Slot.init) = false := by
  decide

/-- C5: `Channel.send` does not exclude the sender: with Alice (id 1) and
Bob (id 2) in the channel, Alice's own queue also receives the
`send_message` frame. -/
theorem channelSend_echoesToSender :
    (channelSend c5State osuNameBytes 1 [104, 105]).users.map
        (fun u => (u.id, u.queue)) =
      [(1, sendMessagePacket [65] [104, 105] [65] 1),
       (2, sendMessagePacket [65] [104, 105] [66] 1)] := by
  decide

/-- C6: moving into an open slot does nothing: the guard compares the
`Slot` object against the enum, which is always unequal, so
`change_match_slot` returns before the move even though slot 1 is `OPEN`
and empty. -/
theorem changeMatchSlot_openSlot_noop :
    (c6Match.slots.getD 1 Slot.init).status = OPEN ∧
    (c6Match.slots.getD 1 Slot.init).user = none ∧
    changeMatchSlot c6Match 7 1 = c6Match := by
  decide

/-- C10: `remove_friend` appends the target id to the in-memory friends
list instead of removing it. -/
theorem removeFriendMemory_appends :
    removeFriendMemory [5] 5 = [5, 5] ∧ 5 ∈ removeFriendMemory [5] 5 := by
  decide

/-- C4 (counterexample): after the last occupant of match 0 leaves, the
`#multi_0` channel is still found in the channel registry — the lookup
does not return nothing. -/
theorem leaveMatch_multiChannelStillRegistered :
    (leaveMatch (c4State 1 [] []) 7).map
      (fun st => (getChannel st.channels multiName0).isSome) = some true := by
  decide

/-- C4 (amended): when the last occupant (seated at any slot) leaves,
the match array entry becomes null and `#lobby`'s members receive the
`CHO_DISPOSE_MATCH` packet; the `#multi_0` channel is emptied of members
but remains registered in `sessions.channels`. -/
theorem leaveMatch_lastOccupant_disposes :
    ∀ (s : Fin 16) (q7 q9 : List Nat),
      leaveMatch (c4State s q7 q9) 7 = some (c4After q7 q9) ∧
      (c4After q7 q9).matchList.getD 0 (some (c4Match s)) = none ∧
      getChannel (c4After q7 q9).channels multiName0 = some (multiChan0 []) := by
  intro s q7 q9
  fin_cases s <;> exact ⟨rfl, rfl, rfl⟩

/-- C9: a seated sender's `OSU_MATCH_SCORE_UPDATE` with a payload of at
least five bytes is rebroadcast to every member of the match chat as a
`CHO_MATCH_SCORE_UPDATE` frame — the 7-byte header (id 48, pad, i32
payload length) followed by the payload with byte index 11 of the frame
overwritten by the sender's slot index — while `#lobby` receives
nothing. -/
theorem updateMatchScore_rebroadcast :
    ∀ (s : Fin 16) (q7 q8 q9 rest : List Nat) (p0 p1 p2 p3 p4 : Nat),
      updateMatchScore (c9State s q7 q8 q9) 7 (p0 :: p1 :: p2 :: p3 :: p4 :: rest) =
        some { c9State s q7 q8 q9 with users := [
          { id := 7, name := [65], privileges := 1
            queue := q7 ++ ([48, 0, 0]
              ++ i32write ((p0 :: p1 :: p2 :: p3 :: p4 :: rest).length : Int)
              ++ (p0 :: p1 :: p2 :: p3 :: (s : Nat) :: rest))
            channels := [multiName0], matchIdx := some 0 },
          { id := 8, name := [66], privileges := 1
            queue := q8 ++ ([48, 0, 0]
              ++ i32write ((p0 :: p1 :: p2 :: p3 :: p4 :: rest).length : Int)
              ++ (p0 :: p1 :: p2 :: p3 :: (s : Nat) :: rest))
            channels := [multiName0], matchIdx := some 0 },
          { id := 9, name := [67], privileges := 1, queue := q9
            channels := [lobbyNameBytes], matchIdx := none } ] } := by
  intro s q7 q8 q9 rest p0 p1 p2 p3 p4
  fin_cases s <;> rfl

/-- C7: when a same-name session is active and neither side is a tourney
client, an idle time above 10 seconds force-logs the old session out and
the login proceeds; otherwise the login is rejected with token `no` and a
body that is exactly one `CHO_NOTIFICATION` frame carrying
`You are already logged in!`. -/
theorem loginDuplicateCheck_policy :
    ∀ (incomingTourney existingTourney : Bool) (now latest : ℚ),
      ¬(incomingTourney = true ∨ existingTourney = true) →
      (now - latest > 10 →
        loginDuplicateCheck true incomingTourney existingTourney now latest
          = .forceLogoutThenProceed) ∧
      (¬(now - latest > 10) →
        loginDuplicateCheck true incomingTourney existingTourney now latest
          = .reject noToken (notificationPacket alreadyLoggedInText) ∧
        notificationPacket alreadyLoggedInText
          = [24, 0, 0, 28, 0, 0, 0, 11, 26] ++ alreadyLoggedInText) := by
  intro it et now latest h
  have hit : it = false := by
    cases it
    · rfl
    · exact absurd (Or.inl rfl) h
  have het : et = false := by
    cases et
    · rfl
    · exact absurd (Or.inr rfl) h
  subst hit het
  constructor
  · intro h10
    simp [loginDuplicateCheck, h10]
  · intro h10
    refine ⟨?_, by decide⟩
    simp [loginDuplicateCheck, h10]

/-- C7 witness: concrete instances of both branches. -/
theorem loginDuplicateCheck_policy_witness :
    loginDuplicateCheck true false false 12 0 = .forceLogoutThenProceed ∧
    loginDuplicateCheck true false false 5 0
      = .reject noToken (notificationPacket alreadyLoggedInText) :=
  ⟨(loginDuplicateCheck_policy false false 12 0 (by simp)).1 (by norm_num),
   ((loginDuplicateCheck_policy false false 5 0 (by simp)).2 (by norm_num)).1⟩

/-- C8 (counterexample): a leading byte other than 0x00/0x0b is not a
protocol error and does not skip the packet: byte 0x05 decodes to the
empty string with only the tag consumed, and a `Message` whose first
string starts with 0x05 decodes the rest of the packet normally. -/
theorem stringRead_unknownTag_notError :
    stringRead [5, 11, 1, 104] = ([], [11, 1, 104]) ∧
    messageRead ([5] ++ stringWrite [104] ++ stringWrite [120] ++ i32write 3)
      = (([], [104], [120], 3), []) := by
  decide

/-- C8 (amended): 0x00 decodes to the empty string; 0x0b is followed by a
ULEB128 length and that many bytes decoding to the string; any *other*
leading byte also decodes to the empty string with only the tag byte
consumed, and decoding of the rest of the packet continues (no protocol
error, no packet skip). -/
theorem stringRead_tagBehaviour :
    (∀ (b : Nat) (rest : List Nat), b ≠ 11 → stringRead (b :: rest) = ([], rest)) ∧
    (∀ (s rest : List Nat), stringRead (stringWrite s ++ rest) = (s, rest)) :=
  ⟨fun _ rest h => by simp [stringRead, h],
   fun s rest => stringRead_stringWrite s rest⟩

/-- C8 witness: the tag cases at concrete bytes. -/
theorem stringRead_tagBehaviour_witness :
    stringRead [5, 99] = ([], [99]) ∧
    stringRead [0, 99] = ([], [99]) ∧
    stringRead (stringWrite [104, 105] ++ [7]) = ([104, 105], [7]) :=
  ⟨stringRead_tagBehaviour.1 5 [99] (by decide),
   stringRead_tagBehaviour.1 0 [99] (by decide),
   stringRead_tagBehaviour.2 [104, 105] [7]⟩

end Bancho
